import Mathlib

/-!
Shallow embedding of the NotifyFlow asynchronous dispatch pipeline.

Sources embedded here:
  * `NotificationService` (createPending / deliver / send / retry / softDelete)
  * `PrismaNotificationRepository.updateStatus` — both the id-only writer used
    by the service and the tenant-scoped `updateMany({ where: { id, userId } })`
    variant
  * the admission path of `POST /api/notifications` after a successful persist
    (enqueue, rollback on enqueue failure, HTTP status)
  * `WebhookChannel.send`, `EmailChannel.send`, the rate limiter
    (`isRateLimited` Redis path and `memIsRateLimited` fallback).

External effects (the SMTP transport, `fetch`, the queue, a backing-store
throw caught as `DatabaseError`) are modelled as explicit outcome parameters;
every embedded operation is a total function returning a `Result`, mirroring
the code's no-throw contract.
-/

namespace NotifyFlow

/-- `NotificationStatus` — `"pending" | "sent" | "failed"` from the domain entity. -/
inductive NotificationStatus where
  | pending
  | sent
  | failed
deriving DecidableEq, Repr

/-- A metadata value: the channels only ever inspect whether a value is a
string, so every non-string JSON value collapses to `other`. -/
inductive MetaValue where
  | str (s : String)
  | other
deriving DecidableEq, Repr

/-- The `Notification` domain entity.  Timestamp fields (`createdAt`,
`updatedAt`, `readAt`) are omitted: no embedded operation reads them. -/
structure Notification where
  id : String
  title : String
  body : String
  channel : String
  status : NotificationStatus
  metadata : Option (List (String × MetaValue))
  correlationId : Option String
  userId : String
deriving DecidableEq, Repr

/-- `CreateNotificationInput` — fields the caller supplies; `id` and `status`
are assigned by the repository. -/
structure CreateNotificationInput where
  title : String
  body : String
  channel : String
  metadata : Option (List (String × MetaValue))
  correlationId : Option String
  userId : String
deriving DecidableEq, Repr

/-- The typed domain failures involved in the embedded operations
(`NotificationNotFound`, `ChannelUnavailable` with its optional cause detail,
`DatabaseError`). -/
inductive DomainError where
  | notificationNotFound (id : String)
  | channelUnavailable (channelName : String) (detail : Option String)
  | databaseError
deriving DecidableEq, Repr

/-- `Result<T, DomainError>` — the discriminated union
`{ ok: true, value } | { ok: false, error }`. -/
inductive Result (α : Type) where
  | ok (value : α)
  | fail (error : DomainError)
deriving DecidableEq, Repr

/-- `result.ok` — the discriminant of the union. -/
def Result.isOk {α : Type} : Result α → Bool
  | .ok _ => true
  | .fail _ => false

/-- Whether a result is a `ChannelUnavailable` failure. -/
def Result.isChannelUnavailable {α : Type} : Result α → Bool
  | .fail (.channelUnavailable _ _) => true
  | _ => false

/-- The notification table: a bag of rows.  Ids are unique in the real
database (primary key); the embedding does not need that assumption because
`updateMany`-style writes touch every matching row. -/
abbrev Store := List Notification

/-- `PrismaNotificationRepository.updateStatus(id, status)` as invoked by
`NotificationService` (writer interface without tenant argument): one
conditional write filtered by `id`; zero affected rows yields `NotFound`;
a backing-store throw (modelled by the `throws` flag) is caught and wrapped
as `DatabaseError`, leaving the table unchanged. -/
def updateStatusById (throws : Bool) (id : String) (status : NotificationStatus)
    (store : Store) : Result Notification × Store :=
  if throws then (.fail .databaseError, store)
  else
    let affected := store.filter (fun n => n.id == id)
    if affected.isEmpty then (.fail (.notificationNotFound id), store)
    else
      let updated := store.map (fun n => if n.id == id then { n with status := status } else n)
      match updated.find? (fun n => n.id == id) with
      | some row => (.ok row, updated)
      | none => (.fail (.notificationNotFound id), updated)

/-- Tenant-scoped `PrismaNotificationRepository.updateStatus(id, status, userId)`:
`updateMany({ where: { id, userId } })`, then `count === 0 → NotFound`, then
`findFirst({ where: { id, userId } })` to return the updated record. -/
def updateStatusTenant (throws : Bool) (id : String) (status : NotificationStatus)
    (userId : String) (store : Store) : Result Notification × Store :=
  if throws then (.fail .databaseError, store)
  else
    let affected := store.filter (fun n => n.id == id && n.userId == userId)
    if affected.isEmpty then (.fail (.notificationNotFound id), store)
    else
      let updated := store.map
        (fun n => if n.id == id && n.userId == userId then { n with status := status } else n)
      match updated.find? (fun n => n.id == id && n.userId == userId) with
      | some row => (.ok row, updated)
      | none => (.fail (.notificationNotFound id), updated)

/-- `PrismaNotificationRepository.create`: inserts a row with status forced to
`"pending"`; the database-assigned id is the `newId` parameter; a
backing-store throw is wrapped as `DatabaseError`. -/
def createNotification (throws : Bool) (newId : String) (input : CreateNotificationInput)
    (store : Store) : Result Notification × Store :=
  if throws then (.fail .databaseError, store)
  else
    let row : Notification :=
      { id := newId, title := input.title, body := input.body,
        channel := input.channel, status := .pending,
        metadata := input.metadata, correlationId := input.correlationId,
        userId := input.userId }
    (.ok row, store ++ [row])

/-- `INotificationChannel`: `name`, `isAvailable()` (configuration-derived,
hence a constant of the channel), and `send` whose outcome is a function of
the notification (the external transport's behaviour folded in). -/
structure Channel where
  name : String
  isAvailable : Bool
  send : Notification → Result Unit

/-- Environment of one `deliver` call: the injected channel registry and
whether the single `writer.updateStatus` call inside `deliver` throws. -/
structure DeliverEnv where
  channels : List Channel
  updateThrows : Bool

/-- `NotificationService.deliver(notification)`: resolve the channel by name;
if absent or unavailable, write `failed` (result of that write discarded) and
return `ChannelUnavailable`; otherwise `send`, then write the terminal status
(`sent` on success, `failed` on failure); surface the send failure first,
then the update failure, then `ok(updateResult.value)`. -/
def deliver (env : DeliverEnv) (n : Notification) (store : Store) :
    Result Notification × Store :=
  match env.channels.find? (fun c => c.name == n.channel) with
  | none =>
      let u := updateStatusById env.updateThrows n.id .failed store
      (.fail (.channelUnavailable n.channel none), u.2)
  | some channel =>
      if !channel.isAvailable then
        let u := updateStatusById env.updateThrows n.id .failed store
        (.fail (.channelUnavailable channel.name none), u.2)
      else
        let sendResult := channel.send n
        let finalStatus : NotificationStatus := if sendResult.isOk then .sent else .failed
        let u := updateStatusById env.updateThrows n.id finalStatus store
        match sendResult with
        | .fail e => (.fail e, u.2)
        | .ok _ =>
            match u.1 with
            | .fail e => (.fail e, u.2)
            | .ok row => (.ok row, u.2)

/-- `NotificationService.createPending(input)` — delegates to `writer.create`. -/
def createPending (throws : Bool) (newId : String) (input : CreateNotificationInput)
    (store : Store) : Result Notification × Store :=
  createNotification throws newId input store

/-- Environment of one `send` call: the `deliver` environment plus the
behaviour of the initial `writer.create`. -/
structure SendEnv extends DeliverEnv where
  createThrows : Bool
  newId : String

/-- `NotificationService.send(input)` (deprecated combined path):
`createPending`, early-return on its failure, then `deliver` on the created
record. -/
def send (env : SendEnv) (input : CreateNotificationInput) (store : Store) :
    Result Notification × Store :=
  let created := createPending env.createThrows env.newId input store
  match created.1 with
  | .fail e => (.fail e, created.2)
  | .ok n => deliver env.toDeliverEnv n created.2

/-- `NotificationService.retry(id)` — `writer.updateStatus(id, "pending")`. -/
def retry (throws : Bool) (id : String) (store : Store) :
    Result Notification × Store :=
  updateStatusById throws id .pending store

/-- `NotificationService.softDelete(id)` — marks the record as failed
(`writer.updateStatus(id, "failed")`); it does not remove the row. -/
def softDelete (throws : Bool) (id : String) (store : Store) :
    Result Notification × Store :=
  updateStatusById throws id .failed store

/-! ### Helper lemmas about the conditional status write -/

/-- If some row matches the id, the filter in `updateStatusById` is nonempty. -/
lemma filter_id_not_empty {store : Store} {n : Notification} (h : n ∈ store) :
    (store.filter (fun x => x.id == n.id)).isEmpty = false := by
  have hmem : n ∈ store.filter (fun x => x.id == n.id) :=
    List.mem_filter.mpr ⟨h, by simp⟩
  cases hE : (store.filter (fun x => x.id == n.id)).isEmpty
  · rfl
  · rw [List.isEmpty_iff] at hE
    rw [hE] at hmem
    exact absurd hmem (List.not_mem_nil n)

/-- With no backing-store throw and at least one matching row, the table after
`updateStatusById` is the pointwise rewrite of every matching row. -/
lemma updateStatusById_store_eq (id : String) (st : NotificationStatus) (store : Store)
    (h : (store.filter (fun x => x.id == id)).isEmpty = false) :
    (updateStatusById false id st store).2 =
      store.map (fun n => if n.id == id then { n with status := st } else n) := by
  unfold updateStatusById
  simp only [Bool.false_eq_true, if_false, h]
  cases hf : (store.map (fun n => if n.id == id then { n with status := st } else n)).find?
      (fun n => n.id == id) <;> simp [hf]

/-- Every row of the rewritten table that carries the written id carries the
written status. -/
lemma mem_statusWrite {store : Store} {id : String} {st : NotificationStatus}
    {m : Notification}
    (hm : m ∈ store.map (fun n => if n.id == id then { n with status := st } else n))
    (hid : m.id = id) : m.status = st := by
  obtain ⟨x, hx, rfl⟩ := List.mem_map.mp hm
  by_cases hxi : x.id = id
  · simp [hxi]
  · simp [hxi] at hid

/-- Rows that do not carry the written id pass through the rewrite unchanged. -/
lemma mem_statusWrite_untouched {store : Store} {id : String} {st : NotificationStatus}
    {m : Notification}
    (hm : m ∈ store.map (fun n => if n.id == id then { n with status := st } else n))
    (hid : m.id ≠ id) : m ∈ store := by
  obtain ⟨x, hx, rfl⟩ := List.mem_map.mp hm
  by_cases hxi : x.id = id
  · simp [hxi] at hid
  · simpa [hxi] using hx

/-- The terminal status `deliver` writes: `failed` when the channel is missing
or unavailable, otherwise `sent` exactly on `send` success. -/
def resolvedStatus (channels : List Channel) (n : Notification) : NotificationStatus :=
  match channels.find? (fun c => c.name == n.channel) with
  | none => .failed
  | some c => if c.isAvailable then (if (c.send n).isOk then .sent else .failed) else .failed

/-- When the status write does not throw and some row matches the id, the
table after `deliver` is the pointwise rewrite to `resolvedStatus`. -/
lemma deliver_store_shape (chs : List Channel) (n : Notification) (store : Store)
    (hne : (store.filter (fun x => x.id == n.id)).isEmpty = false) :
    (deliver { channels := chs, updateThrows := false } n store).2 =
      store.map (fun x => if x.id == n.id then { x with status := resolvedStatus chs n } else x) := by
  unfold deliver resolvedStatus
  cases hfind : chs.find? (fun c => c.name == n.channel) with
  | none =>
      simpa using updateStatusById_store_eq n.id .failed store hne
  | some c =>
      by_cases hav : c.isAvailable = true
      · cases hsend : c.send n with
        | ok u =>
            simp only [hav, Bool.not_true, Bool.false_eq_true, if_false, hsend,
              Result.isOk, if_true]
            cases hu : (updateStatusById false n.id .sent store).1 <;>
              simp [hu, updateStatusById_store_eq n.id .sent store hne]
        | fail e =>
            simp only [hav, Bool.not_true, Bool.false_eq_true, if_false, hsend,
              Result.isOk]
            simpa using updateStatusById_store_eq n.id .failed store hne
      · have hav2 : c.isAvailable = false := by
          revert hav; cases c.isAvailable <;> simp
        simp only [hav2, Bool.not_false, if_true]
        simpa using updateStatusById_store_eq n.id .failed store hne

/-! ### Claim theorems for the dispatch service -/

/-- C1. After `deliver(notification)` returns (the notification being
persisted and the terminal status write not throwing), every stored row with
the notification's id has status in `{sent, failed}` — never `pending` — and
it is `sent` exactly when a channel with the notification's channel name was
registered, `isAvailable()` returned true, and its `send` returned success. -/
theorem deliver_terminal_status (env : DeliverEnv) (n : Notification) (store : Store)
    (hthrow : env.updateThrows = false) (hmem : n ∈ store) :
    ∀ m ∈ (deliver env n store).2, m.id = n.id →
      (m.status = .sent ∨ m.status = .failed) ∧
      (m.status = .sent ↔ ∃ c, env.channels.find? (fun c => c.name == n.channel) = some c ∧
        c.isAvailable = true ∧ (c.send n).isOk = true) := by
  obtain ⟨chs, ut⟩ := env
  replace hthrow : ut = false := hthrow
  subst hthrow
  intro m hm hid
  dsimp only at hm ⊢
  rw [deliver_store_shape chs n store (filter_id_not_empty hmem)] at hm
  have hst := mem_statusWrite hm hid
  rw [hst]
  constructor
  · rcases hf : chs.find? (fun c => c.name == n.channel) with _ | c
    · simp [resolvedStatus, hf]
    · simp only [resolvedStatus, hf]
      split_ifs <;> simp
  · constructor
    · intro hsent
      rcases hf : chs.find? (fun c => c.name == n.channel) with _ | c
      · rw [resolvedStatus, hf] at hsent
        simp at hsent
      · rw [resolvedStatus, hf] at hsent
        simp only [] at hsent
        split_ifs at hsent with h1 h2
        exact ⟨c, hf, h1, h2⟩
    · rintro ⟨c, hc, hav, hok⟩
      rw [resolvedStatus, hc]
      simp [hav, hok]

/-- C4. When no channel carries the notification's channel name, or the
resolved channel is unavailable, `deliver` writes status `failed` to the
store and returns a `ChannelUnavailable` error. -/
theorem deliver_unavailable_marks_failed (env : DeliverEnv) (n : Notification) (store : Store)
    (hthrow : env.updateThrows = false) (hmem : n ∈ store)
    (hun : env.channels.find? (fun c => c.name == n.channel) = none ∨
      ∃ c, env.channels.find? (fun c => c.name == n.channel) = some c ∧ c.isAvailable = false) :
    (deliver env n store).1.isChannelUnavailable = true ∧
    ∀ m ∈ (deliver env n store).2, m.id = n.id → m.status = .failed := by
  obtain ⟨chs, ut⟩ := env
  replace hthrow : ut = false := hthrow
  subst hthrow
  dsimp only at hun ⊢
  constructor
  · rcases hun with hf | ⟨c, hf, hav⟩
    · simp [deliver, hf, Result.isChannelUnavailable]
    · simp [deliver, hf, hav, Result.isChannelUnavailable]
  · intro m hm hid
    rw [deliver_store_shape chs n store (filter_id_not_empty hmem)] at hm
    have hst := mem_statusWrite hm hid
    rw [hst]
    rcases hun with hf | ⟨c, hf, hav⟩
    · simp [resolvedStatus, hf]
    · simp [resolvedStatus, hf, hav]

/-- C7. When the channel's `send` succeeds but the terminal status write
returns a failure, `deliver` surfaces that store error to the caller. -/
theorem deliver_surfaces_update_failure (env : DeliverEnv) (n : Notification) (store : Store)
    (c : Channel) (e : DomainError)
    (hfind : env.channels.find? (fun c => c.name == n.channel) = some c)
    (hav : c.isAvailable = true)
    (hsend : c.send n = .ok ())
    (hupd : (updateStatusById env.updateThrows n.id .sent store).1 = .fail e) :
    (deliver env n store).1 = .fail e := by
  simp [deliver, hfind, hav, hsend, Result.isOk, hupd]

/-- C5. `retry(id)` resets the stored status to `pending` with no
precondition on the prior status: the persisted notification may be
`pending`, `sent` or `failed`. -/
theorem retry_resets_to_pending (store : Store) (n : Notification) (hmem : n ∈ store) :
    ∀ m ∈ (retry false n.id store).2, m.id = n.id → m.status = .pending := by
  intro m hm hid
  unfold retry at hm
  rw [updateStatusById_store_eq n.id .pending store (filter_id_not_empty hmem)] at hm
  exact mem_statusWrite hm hid

/-- C10. `NotificationService.send(input)` equals the composition of
`createPending` and `deliver`: it returns the create failure when
persistence fails, and otherwise returns exactly `deliver` applied to the
created record in the post-create store. -/
theorem send_is_createPending_then_deliver (env : SendEnv) (input : CreateNotificationInput)
    (store : Store) :
    send env input store =
      match createPending env.createThrows env.newId input store with
      | (.fail e, s) => (.fail e, s)
      | (.ok n, s) => deliver env.toDeliverEnv n s := by
  unfold send
  cases h : createPending env.createThrows env.newId input store with
  | mk r s => cases r <;> simp [h]

/-! ### Concrete fixtures for the witness theorems -/

/-- A registered, available channel whose transport succeeds. -/
def wChannelOk : Channel :=
  { name := "in-app", isAvailable := true, send := fun _ => .ok () }

/-- A registered channel whose `isAvailable()` is false. -/
def wChannelDown : Channel :=
  { name := "email", isAvailable := false, send := fun _ => .ok () }

/-- A pending in-app notification. -/
def wNotif : Notification :=
  { id := "n1", title := "t", body := "b", channel := "in-app", status := .pending,
    metadata := none, correlationId := none, userId := "u1" }

/-- A pending email notification. -/
def wNotifEmail : Notification :=
  { id := "n2", title := "t", body := "b", channel := "email", status := .pending,
    metadata := none, correlationId := none, userId := "u1" }

/-- A notification already in status `sent`. -/
def wNotifSent : Notification :=
  { id := "n3", title := "t", body := "b", channel := "in-app", status := .sent,
    metadata := none, correlationId := none, userId := "u1" }

/-- Registry with the healthy channel; status writes succeed. -/
def wEnv : DeliverEnv := { channels := [wChannelOk], updateThrows := false }

/-- Registry with only the unavailable channel; status writes succeed. -/
def wEnvDown : DeliverEnv := { channels := [wChannelDown], updateThrows := false }

/-- Registry with the healthy channel; the status write throws. -/
def wEnvThrow : DeliverEnv := { channels := [wChannelOk], updateThrows := true }

/-- Witness for C1 at a concrete notification, store and registry. -/
theorem deliver_terminal_status_witness :
    wEnv.updateThrows = false ∧ wNotif ∈ [wNotif] ∧
      (∀ m ∈ (deliver wEnv wNotif [wNotif]).2, m.id = wNotif.id →
        (m.status = .sent ∨ m.status = .failed) ∧
        (m.status = .sent ↔ ∃ c, wEnv.channels.find? (fun c => c.name == wNotif.channel) = some c ∧
          c.isAvailable = true ∧ (c.send wNotif).isOk = true)) :=
  ⟨rfl, by simp, deliver_terminal_status wEnv wNotif [wNotif] rfl (by simp)⟩

/-- Witness for C4 at a concrete unavailable channel. -/
theorem deliver_unavailable_marks_failed_witness :
    wEnvDown.updateThrows = false ∧ wNotifEmail ∈ [wNotifEmail] ∧
      (wEnvDown.channels.find? (fun c => c.name == wNotifEmail.channel) = none ∨
        ∃ c, wEnvDown.channels.find? (fun c => c.name == wNotifEmail.channel) = some c ∧
          c.isAvailable = false) ∧
      ((deliver wEnvDown wNotifEmail [wNotifEmail]).1.isChannelUnavailable = true ∧
        ∀ m ∈ (deliver wEnvDown wNotifEmail [wNotifEmail]).2, m.id = wNotifEmail.id →
          m.status = .failed) :=
  ⟨rfl, by simp, Or.inr ⟨wChannelDown, rfl, rfl⟩,
    deliver_unavailable_marks_failed wEnvDown wNotifEmail [wNotifEmail] rfl (by simp)
      (Or.inr ⟨wChannelDown, rfl, rfl⟩)⟩

/-- Witness for C7: the send succeeds, the status write throws, and the
store error is returned. -/
theorem deliver_surfaces_update_failure_witness :
    wEnvThrow.channels.find? (fun c => c.name == wNotif.channel) = some wChannelOk ∧
      wChannelOk.isAvailable = true ∧
      wChannelOk.send wNotif = .ok () ∧
      (updateStatusById wEnvThrow.updateThrows wNotif.id .sent [wNotif]).1 =
        .fail .databaseError ∧
      (deliver wEnvThrow wNotif [wNotif]).1 = .fail .databaseError :=
  ⟨rfl, rfl, rfl, rfl,
    deliver_surfaces_update_failure wEnvThrow wNotif [wNotif] wChannelOk .databaseError
      rfl rfl rfl rfl⟩

/-- Witness for C5 on a notification whose prior status is `sent`. -/
theorem retry_resets_to_pending_witness :
    wNotifSent ∈ [wNotifSent] ∧
      (∀ m ∈ (retry false wNotifSent.id [wNotifSent]).2, m.id = wNotifSent.id →
        m.status = .pending) :=
  ⟨by simp, retry_resets_to_pending [wNotifSent] wNotifSent (by simp)⟩

/-! ### Tenant-scoped updateStatus (C3) -/

/-- With no throw and at least one row matching `(id, userId)`, the table
after the tenant-scoped write is the pointwise rewrite of matching rows. -/
lemma updateStatusTenant_store_eq (id : String) (st : NotificationStatus) (userId : String)
    (store : Store)
    (h : (store.filter (fun x => x.id == id && x.userId == userId)).isEmpty = false) :
    (updateStatusTenant false id st userId store).2 =
      store.map (fun n => if n.id == id && n.userId == userId then { n with status := st } else n) := by
  unfold updateStatusTenant
  simp only [Bool.false_eq_true, if_false, h]
  cases hf : (store.map
      (fun n => if n.id == id && n.userId == userId then { n with status := st } else n)).find?
      (fun n => n.id == id && n.userId == userId) <;> simp [hf]

/-- Rows not matching both tenant filters pass through the rewrite unchanged. -/
lemma mem_tenantWrite_untouched {store : Store} {id userId : String}
    {st : NotificationStatus} {m : Notification}
    (hm : m ∈ store.map
      (fun n => if n.id == id && n.userId == userId then { n with status := st } else n))
    (hneq : ¬(m.id = id ∧ m.userId = userId)) : m ∈ store := by
  obtain ⟨x, hx, rfl⟩ := List.mem_map.mp hm
  by_cases hp : (x.id == id && x.userId == userId) = true
  · rw [Bool.and_eq_true, beq_iff_eq, beq_iff_eq] at hp
    rw [if_pos] at hneq
    · exact absurd ⟨hp.1, hp.2⟩ hneq
    · rw [Bool.and_eq_true, beq_iff_eq, beq_iff_eq]
      exact hp
  · simpa [hp] using hx

/-- C3. The tenant-scoped `updateStatus(id, status, userId)` is one
conditional write filtered by both `id` and `userId`: rows not matching
both filters are untouched, a zero-row match returns `NotFound` with the
table unchanged (never a silent no-op success), and any success implies a
row matching both filters existed. -/
theorem updateStatus_zero_rows_not_found (id : String) (st : NotificationStatus)
    (userId : String) (store : Store) :
    ((∀ n ∈ store, ¬(n.id = id ∧ n.userId = userId)) →
      updateStatusTenant false id st userId store = (.fail (.notificationNotFound id), store)) ∧
    (∀ m ∈ (updateStatusTenant false id st userId store).2,
      ¬(m.id = id ∧ m.userId = userId) → m ∈ store) ∧
    (∀ r, (updateStatusTenant false id st userId store).1 = .ok r →
      ∃ n ∈ store, n.id = id ∧ n.userId = userId) := by
  refine ⟨?_, ?_, ?_⟩
  · intro h
    have hemp : (store.filter (fun x => x.id == id && x.userId == userId)).isEmpty = true := by
      rw [List.isEmpty_iff, List.filter_eq_nil_iff]
      intro a ha
      rw [Bool.and_eq_true, beq_iff_eq, beq_iff_eq]
      exact fun hc => h a ha hc
    simp [updateStatusTenant, hemp]
  · intro m hm hneq
    by_cases hemp : (store.filter (fun x => x.id == id && x.userId == userId)).isEmpty = true
    · simp only [updateStatusTenant, Bool.false_eq_true, if_false, hemp, if_true] at hm
      exact hm
    · rw [Bool.not_eq_true] at hemp
      rw [updateStatusTenant_store_eq id st userId store hemp] at hm
      exact mem_tenantWrite_untouched hm hneq
  · intro r hr
    by_cases hemp : (store.filter (fun x => x.id == id && x.userId == userId)).isEmpty = true
    · simp [updateStatusTenant, hemp] at hr
    · rw [Bool.not_eq_true, List.isEmpty_eq_false_iff_exists_mem] at hemp
      obtain ⟨a, ha⟩ := hemp
      obtain ⟨ha1, ha2⟩ := List.mem_filter.mp ha
      rw [Bool.and_eq_true, beq_iff_eq, beq_iff_eq] at ha2
      exact ⟨a, ha1, ha2⟩

/-- A notification owned by a different tenant. -/
def wNotifOtherTenant : Notification :=
  { id := "n1", title := "t", body := "b", channel := "in-app", status := .pending,
    metadata := none, correlationId := none, userId := "u2" }

/-- Witness for C3: a cross-tenant update affects zero rows and fails with
`NotFound`, leaving the table unchanged. -/
theorem updateStatus_zero_rows_not_found_witness :
    (∀ n ∈ [wNotifOtherTenant], ¬(n.id = "n1" ∧ n.userId = "u1")) ∧
      updateStatusTenant false "n1" .sent "u1" [wNotifOtherTenant] =
        (.fail (.notificationNotFound "n1"), [wNotifOtherTenant]) :=
  ⟨by decide,
    (updateStatus_zero_rows_not_found "n1" .sent "u1" [wNotifOtherTenant]).1 (by decide)⟩

/-! ### Admission path after a successful persist (C2) -/

/-- Outcome of `notificationQueue.add` as observed by the route's try/catch. -/
inductive EnqueueOutcome where
  | enqueued (jobId : String)
  | enqueueError (msg : String)

/-- Tail of `POST /api/notifications` after `createPending` succeeded: try to
enqueue the `DeliveryJob`; on enqueue failure run the rollback —
`notificationService.softDelete(notification.id, ...)` — and answer 503; on
success answer 202.  Returns the HTTP status and the resulting table. -/
def admissionAfterPersist (enq : EnqueueOutcome) (softDeleteThrows : Bool)
    (n : Notification) (store : Store) : Nat × Store :=
  match enq with
  | .enqueued _ => (202, store)
  | .enqueueError _ =>
      let d := softDelete softDeleteThrows n.id store
      (503, d.2)

/-- Counterexample to C2: after a successful persist of a pending
notification, an enqueue failure leaves the persisted record in the store —
the rollback is `softDelete`, which marks it `failed` instead of deleting
it.  The caller does receive a 503. -/
theorem admission_enqueue_failure_record_remains :
    (admissionAfterPersist (.enqueueError "queue down") false wNotif [wNotif]).1 = 503 ∧
    ∃ m ∈ (admissionAfterPersist (.enqueueError "queue down") false wNotif [wNotif]).2,
      m.id = wNotif.id := by
  refine ⟨rfl, ?_⟩
  decide

/-- C2 (amended). When enqueueing fails after the record was persisted, the
admission path performs a compensating soft-delete: the record remains in
the store but is marked `failed`, and the caller receives a 503. -/
theorem admission_enqueue_failure_soft_deletes (msg : String) (n : Notification)
    (store : Store) (hmem : n ∈ store) :
    (admissionAfterPersist (.enqueueError msg) false n store).1 = 503 ∧
    (∃ m ∈ (admissionAfterPersist (.enqueueError msg) false n store).2, m.id = n.id) ∧
    (∀ m ∈ (admissionAfterPersist (.enqueueError msg) false n store).2, m.id = n.id →
      m.status = .failed) := by
  have hne := filter_id_not_empty hmem
  have hshape : (admissionAfterPersist (.enqueueError msg) false n store).2 =
      store.map (fun x => if x.id == n.id then { x with status := .failed } else x) := by
    unfold admissionAfterPersist softDelete
    exact updateStatusById_store_eq n.id .failed store hne
  refine ⟨rfl, ?_, ?_⟩
  · rw [hshape]
    refine ⟨{ n with status := .failed }, ?_, rfl⟩
    have := List.mem_map_of_mem
      (fun x => if x.id == n.id then { x with status := NotificationStatus.failed } else x) hmem
    simpa using this
  · intro m hm hid
    rw [hshape] at hm
    exact mem_statusWrite hm hid

/-- Witness for the amended C2 at a concrete pending notification. -/
theorem admission_enqueue_failure_soft_deletes_witness :
    wNotifEmail ∈ [wNotifEmail] ∧
      ((admissionAfterPersist (.enqueueError "redis refused") false wNotifEmail [wNotifEmail]).1
          = 503 ∧
        (∃ m ∈ (admissionAfterPersist (.enqueueError "redis refused") false wNotifEmail
            [wNotifEmail]).2, m.id = wNotifEmail.id) ∧
        (∀ m ∈ (admissionAfterPersist (.enqueueError "redis refused") false wNotifEmail
            [wNotifEmail]).2, m.id = wNotifEmail.id → m.status = .failed)) :=
  ⟨by simp,
    admission_enqueue_failure_soft_deletes "redis refused" wNotifEmail [wNotifEmail] (by simp)⟩

/-! ### WebhookChannel (C8) -/

/-- Outcome of the guarded `fetch` inside `WebhookChannel.send`: either the
promise resolved (within the abort timeout) with an HTTP status code, or it
rejected — covering the `AbortController` timeout and network errors, both
of which land in the catch block. -/
inductive FetchOutcome where
  | response (status : Nat)
  | abortedOrError (msg : String)
deriving DecidableEq, Repr

/-- `WebhookChannelConfig` with the constructor's defaults applied
(`secret ?? ''`, `timeoutMs ?? 10_000`). -/
structure WebhookChannelConfig where
  url : String
  secret : String
  timeoutMs : Nat
deriving DecidableEq, Repr

/-- `String.prototype.startsWith`, made kernel-computable (the builtin
`String.startsWith` does not reduce). -/
def strStartsWith (s p : String) : Bool :=
  p.data.isPrefixOf s.data

/-- `String.prototype.trim` — strips leading and trailing whitespace;
kernel-computable model over the character list. -/
def jsTrim (s : String) : String :=
  String.mk (((s.data.dropWhile Char.isWhitespace).reverse.dropWhile
    Char.isWhitespace).reverse)

/-- `WebhookChannel.isAvailable()` — `this.config.url.startsWith('http')`. -/
def webhookIsAvailable (config : WebhookChannelConfig) : Bool :=
  strStartsWith config.url "http"

/-- `Response.ok` — status in the 2xx range (fetch defines it as 200–299). -/
def responseOk (status : Nat) : Bool :=
  200 ≤ status && status < 300

/-- `WebhookChannel.send`: guard on availability, POST, then `response.ok`
decides success; a non-ok response or a rejected fetch both produce a typed
`ChannelUnavailable` failure — nothing is thrown past this boundary. -/
def webhookSend (config : WebhookChannelConfig) (fetchOutcome : FetchOutcome)
    (n : Notification) : Result Unit :=
  if !webhookIsAvailable config then .fail (.channelUnavailable "webhook" none)
  else
    match fetchOutcome with
    | .response status =>
        if responseOk status then .ok ()
        else .fail (.channelUnavailable
          ("webhook: target responded with " ++ toString status) none)
    | .abortedOrError msg => .fail (.channelUnavailable ("webhook: " ++ msg) none)

/-- C8. With a configured URL, `WebhookChannel.send` succeeds exactly when
the POST resolves with a 2xx status; every non-2xx response and every
timeout/network rejection yields a `ChannelUnavailable` failure value. -/
theorem webhookSend_success_iff_2xx (config : WebhookChannelConfig) (n : Notification)
    (hav : webhookIsAvailable config = true) :
    (∀ r, webhookSend config r n = .ok () ↔
      ∃ s, r = .response s ∧ 200 ≤ s ∧ s < 300) ∧
    (∀ r, webhookSend config r n ≠ .ok () →
      (webhookSend config r n).isChannelUnavailable = true) := by
  constructor
  · intro r
    cases r with
    | response s =>
        by_cases h200 : 200 ≤ s
        · by_cases h300 : s < 300
          · constructor
            · intro _
              exact ⟨s, rfl, h200, h300⟩
            · intro _
              simp [webhookSend, hav, responseOk, h200, h300]
          · constructor
            · intro h
              simp [webhookSend, hav, responseOk, h200, h300] at h
            · rintro ⟨s1, hs1, _, h3⟩
              cases hs1
              exact absurd h3 h300
        · constructor
          · intro h
            simp [webhookSend, hav, responseOk, h200] at h
          · rintro ⟨s1, hs1, h2, _⟩
            cases hs1
            exact absurd h2 h200
    | abortedOrError msg => simp [webhookSend, hav]
  · intro r hne
    cases r with
    | response s =>
        by_cases hok : responseOk s = true
        · exact absurd (by simp [webhookSend, hav, hok]) hne
        · rw [Bool.not_eq_true] at hok
          simp [webhookSend, hav, hok, Result.isChannelUnavailable]
    | abortedOrError msg => simp [webhookSend, hav, Result.isChannelUnavailable]

/-- A configured webhook target. -/
def wWebhookConfig : WebhookChannelConfig :=
  { url := "https://example.test/hook", secret := "", timeoutMs := 10000 }

/-- Witness for C8 at a concrete configured URL. -/
theorem webhookSend_success_iff_2xx_witness :
    webhookIsAvailable wWebhookConfig = true ∧
      ((∀ r, webhookSend wWebhookConfig r wNotif = .ok () ↔
          ∃ s, r = .response s ∧ 200 ≤ s ∧ s < 300) ∧
        (∀ r, webhookSend wWebhookConfig r wNotif ≠ .ok () →
          (webhookSend wWebhookConfig r wNotif).isChannelUnavailable = true)) :=
  ⟨by decide, webhookSend_success_iff_2xx wWebhookConfig wNotif (by decide)⟩

/-! ### EmailChannel (C9) -/

/-- `EmailChannelConfig` (`from` is a Lean keyword, hence `fromAddr`). -/
structure EmailChannelConfig where
  host : String
  port : Nat
  user : String
  pass : String
  fromAddr : String
deriving DecidableEq, Repr

/-- `EmailChannel.isAvailable()` — host, user and pass all nonempty. -/
def emailIsAvailable (config : EmailChannelConfig) : Bool :=
  decide (0 < config.host.length) && decide (0 < config.user.length) &&
    decide (0 < config.pass.length)

/-- Outcome of `transporter.sendMail` when it is reached. -/
inductive SmtpOutcome where
  | delivered
  | transportError (msg : String)
deriving DecidableEq, Repr

/-- `notification.metadata?.["to"]` — optional chaining over the metadata map. -/
def metaLookup : Option (List (String × MetaValue)) → String → Option MetaValue
  | none, _ => none
  | some l, k => l.lookup k

/-- `EmailChannel.send` (the variant with the recipient guard): availability
guard, then `typeof to !== "string" || to.trim().length === 0` rejects with
a typed `ChannelUnavailable` carrying cause detail before any transport
call; otherwise `sendMail` runs and a transport error is wrapped, never
rethrown.  The Bool records whether `sendMail` was invoked. -/
def emailSend (config : EmailChannelConfig) (smtp : SmtpOutcome) (n : Notification) :
    Result Unit × Bool :=
  if !emailIsAvailable config then (.fail (.channelUnavailable "email" none), false)
  else
    match metaLookup n.metadata "to" with
    | some (.str toAddr) =>
        if (jsTrim toAddr).length == 0 then
          (.fail (.channelUnavailable "email"
            (some "metadata.to must be a non-empty string (recipient email address)")), false)
        else
          match smtp with
          | .delivered => (.ok (), true)
          | .transportError msg => (.fail (.channelUnavailable "email" (some msg)), true)
    | _ =>
        (.fail (.channelUnavailable "email"
          (some "metadata.to must be a non-empty string (recipient email address)")), false)

/-- Whether the metadata carries a destination address: a string value under
`"to"` that is nonempty after trimming. -/
def hasRecipient (n : Notification) : Bool :=
  match metaLookup n.metadata "to" with
  | some (.str toAddr) => !((jsTrim toAddr).length == 0)
  | _ => false

/-- C9. When the metadata carries no destination address (missing key,
non-string value, or blank string), `EmailChannel.send` returns a typed
`ChannelUnavailable` failure and the transport is never invoked. -/
theorem emailSend_missing_recipient (config : EmailChannelConfig) (smtp : SmtpOutcome)
    (n : Notification) (hto : hasRecipient n = false) :
    (emailSend config smtp n).2 = false ∧
    (emailSend config smtp n).1.isChannelUnavailable = true := by
  unfold hasRecipient at hto
  by_cases hcfg : emailIsAvailable config = true
  · cases hmeta : metaLookup n.metadata "to" with
    | none => simp [emailSend, hcfg, hmeta, Result.isChannelUnavailable]
    | some v =>
        cases v with
        | str toAddr =>
            rw [hmeta] at hto
            have hlen : (jsTrim toAddr).length = 0 := by
              revert hto
              cases h : ((jsTrim toAddr).length == 0)
              · simp
              · rw [beq_iff_eq] at h
                exact fun _ => h
            simp [emailSend, hcfg, hmeta, hlen, Result.isChannelUnavailable]
        | other => simp [emailSend, hcfg, hmeta, Result.isChannelUnavailable]
  · rw [Bool.not_eq_true] at hcfg
    simp [emailSend, hcfg, Result.isChannelUnavailable]

/-- A fully configured SMTP transport. -/
def wEmailConfig : EmailChannelConfig :=
  { host := "smtp.test", port := 587, user := "u", pass := "p", fromAddr := "noreply@test" }

/-- Witness for C9: metadata without a `"to"` key, transport never invoked. -/
theorem emailSend_missing_recipient_witness :
    hasRecipient wNotifEmail = false ∧
      ((emailSend wEmailConfig .delivered wNotifEmail).2 = false ∧
        (emailSend wEmailConfig .delivered wNotifEmail).1.isChannelUnavailable = true) :=
  ⟨by decide, emailSend_missing_recipient wEmailConfig .delivered wNotifEmail (by decide)⟩

/-! ### Rate limiter (C6)

`rateLimit.ts` with the default configuration `MAX = 20`,
`WINDOW_S = 60`.  Redis `INCR` is a per-key counter; `EXPIRE` only
garbage-collects a bucket key after its window has passed (TTL is
`WINDOW_S + 1`, and bucket numbers are never revisited as time moves
forward), so it is dropped from the model: it cannot change any return
value.  Both stores are association lists whose `lookup` sees the most
recent write. -/

def MAX : Nat := 20

def WINDOW_S : Nat := 60

def WINDOW_MS : Nat := WINDOW_S * 1000

/-- A per-key fixed-window entry of the in-memory fallback store. -/
structure WindowEntry where
  count : Nat
  resetAt : Nat
deriving DecidableEq, Repr

/-- The in-memory fallback `Map<string, WindowEntry>`. -/
abbrev MemStore := List (String × WindowEntry)

/-- `memStore.set(key, e)` — subsequent lookups of `key` see `e`. -/
def memSet (key : String) (e : WindowEntry) (store : MemStore) : MemStore :=
  (key, e) :: store.filter (fun p => p.1 != key)

/-- `memIsRateLimited(key)` at time `now`: absent or expired entry resets
the window to `{count: 1, resetAt: now + WINDOW_MS}` and admits; otherwise
the count is incremented in place and the call is rejected when the new
count exceeds `MAX`. -/
def memIsRateLimited (now : Nat) (key : String) (store : MemStore) : Bool × MemStore :=
  match store.lookup key with
  | none => (false, memSet key { count := 1, resetAt := now + WINDOW_MS } store)
  | some entry =>
      if entry.resetAt ≤ now then
        (false, memSet key { count := 1, resetAt := now + WINDOW_MS } store)
      else
        let e := { count := entry.count + 1, resetAt := entry.resetAt }
        (decide (MAX < e.count), memSet key e store)

/-- A sequence of `memIsRateLimited` calls for one key at given times. -/
def memCalls (key : String) : List Nat → MemStore → List Bool × MemStore
  | [], store => ([], store)
  | t :: ts, store =>
      let r := memIsRateLimited t key store
      let rest := memCalls key ts r.2
      (r.1 :: rest.1, rest.2)

/-- The Redis counters: one entry per `rl:{key}:{bucket}` key. -/
abbrev RedisStore := List (String × Nat)

/-- Overwrite a Redis key. -/
def redisSet (k : String) (v : Nat) (store : RedisStore) : RedisStore :=
  (k, v) :: store.filter (fun p => p.1 != k)

/-- The fixed-window bucket key for bucket number `b`. -/
def redisBucketKey (key : String) (b : Nat) : String :=
  "rl:" ++ key ++ ":" ++ toString b

/-- `redisKey(key)` at time `now` — the bucket rotates every `WINDOW_MS`. -/
def redisKey (now : Nat) (key : String) : String :=
  redisBucketKey key (now / WINDOW_MS)

/-- Atomic `INCR`: missing keys count as 0. -/
def redisIncr (k : String) (store : RedisStore) : Nat × RedisStore :=
  let newCount := (store.lookup k).getD 0 + 1
  (newCount, redisSet k newCount store)

/-- The Redis path of `isRateLimited(key)` at time `now`: increment the
bucket key and reject when the counter exceeds `MAX`. -/
def isRateLimitedRedis (now : Nat) (key : String) (store : RedisStore) : Bool × RedisStore :=
  let r := redisIncr (redisKey now key) store
  (decide (MAX < r.1), r.2)

/-- A sequence of Redis-path calls for one key at given times. -/
def redisCalls (key : String) : List Nat → RedisStore → List Bool × RedisStore
  | [], store => ([], store)
  | t :: ts, store =>
      let r := isRateLimitedRedis t key store
      let rest := redisCalls key ts r.2
      (r.1 :: rest.1, rest.2)

/-- Lookup after `memSet` sees the written entry. -/
lemma memSet_lookup (key : String) (e : WindowEntry) (store : MemStore) :
    (memSet key e store).lookup key = some e := by
  simp [memSet, List.lookup]

/-- Lookup after `redisSet` sees the written counter. -/
lemma redisSet_lookup (k : String) (v : Nat) (store : RedisStore) :
    (redisSet k v store).lookup k = some v := by
  simp [redisSet, List.lookup]

/-- Invariant run of the fallback limiter: with a live entry `⟨c, r⟩` and
every call inside the window, the i-th call returns `MAX < c + i + 1`. -/
lemma memCalls_live_window (key : String) (ts : List Nat) (c r : Nat) (store : MemStore)
    (hlook : store.lookup key = some { count := c, resetAt := r })
    (hin : ∀ u ∈ ts, u < r) :
    (memCalls key ts store).1 =
      (List.range ts.length).map (fun i => decide (MAX < c + i + 1)) := by
  induction ts generalizing c store with
  | nil => simp [memCalls]
  | cons t ts ih =>
      have ht : ¬ r ≤ t := by
        have := hin t (by simp)
        omega
      have hstep : memIsRateLimited t key store =
          (decide (MAX < c + 1), memSet key { count := c + 1, resetAt := r } store) := by
        simp [memIsRateLimited, hlook, ht]
      have hrest := ih (c + 1) (memSet key { count := c + 1, resetAt := r } store)
        (memSet_lookup key _ store) (fun u hu => hin u (by simp [hu]))
      simp only [memCalls, hstep, hrest]
      rw [List.length_cons, List.range_succ_eq_map, List.map_cons, List.map_map]
      refine congrArg₂ List.cons (by norm_num) ?_
      refine List.map_congr_left ?_
      intro i _
      simp only [Function.comp_apply]
      exact decide_eq_decide.mpr (by constructor <;> omega)

/-- Invariant run of the Redis path: with bucket counter at `c` and every
call in bucket `b`, the i-th call returns `MAX < c + i + 1`. -/
lemma redisCalls_same_bucket (key : String) (ts : List Nat) (c b : Nat) (store : RedisStore)
    (hc : (store.lookup (redisBucketKey key b)).getD 0 = c)
    (hb : ∀ u ∈ ts, u / WINDOW_MS = b) :
    (redisCalls key ts store).1 =
      (List.range ts.length).map (fun i => decide (MAX < c + i + 1)) := by
  induction ts generalizing c store with
  | nil => simp [redisCalls]
  | cons t ts ih =>
      have hkey : redisKey t key = redisBucketKey key b := by
        rw [redisKey, hb t (by simp)]
      have hstep : isRateLimitedRedis t key store =
          (decide (MAX < c + 1),
            redisSet (redisBucketKey key b) (c + 1) store) := by
        simp [isRateLimitedRedis, redisIncr, hkey, hc]
      have hrest := ih (c + 1) (redisSet (redisBucketKey key b) (c + 1) store)
        (by rw [redisSet_lookup]; rfl) (fun u hu => hb u (by simp [hu]))
      simp only [redisCalls, hstep, hrest]
      rw [List.length_cons, List.range_succ_eq_map, List.map_cons, List.map_map]
      refine congrArg₂ List.cons (by norm_num) ?_
      refine List.map_congr_left ?_
      intro i _
      simp only [Function.comp_apply]
      exact decide_eq_decide.mpr (by constructor <;> omega)

/-- C6. With `MAX = 20` and `WINDOW = 60` s: (a) in the fallback, starting
from an absent key, calls within the window produce `i + 1 > 20` at the
i-th position — the first 20 admitted, the 21st rejected; (b) in the
fallback, a call at or past `resetAt` is admitted again; (c) on the Redis
path, calls within one bucket from a fresh counter produce the same
pattern; (d) a time one window later lands in a strictly later bucket, and
(e) a call on a fresh bucket counter is admitted. -/
theorem isRateLimited_window_spec :
    (∀ (key : String) (t : Nat) (ts : List Nat) (store : MemStore),
      store.lookup key = none → (∀ u ∈ ts, u < t + WINDOW_MS) →
      (memCalls key (t :: ts) store).1 =
        (List.range (ts.length + 1)).map (fun i => decide (MAX < i + 1))) ∧
    (∀ (key : String) (e : WindowEntry) (store : MemStore) (t : Nat),
      store.lookup key = some e → e.resetAt ≤ t →
      (memIsRateLimited t key store).1 = false) ∧
    (∀ (key : String) (ts : List Nat) (b : Nat) (store : RedisStore),
      (store.lookup (redisBucketKey key b)).getD 0 = 0 → (∀ u ∈ ts, u / WINDOW_MS = b) →
      (redisCalls key ts store).1 =
        (List.range ts.length).map (fun i => decide (MAX < i + 1))) ∧
    (∀ (t1 t2 : Nat), t1 + WINDOW_MS ≤ t2 → t1 / WINDOW_MS < t2 / WINDOW_MS) ∧
    (∀ (key : String) (t : Nat) (store : RedisStore),
      (store.lookup (redisKey t key)).getD 0 = 0 →
      (isRateLimitedRedis t key store).1 = false) := by
  refine ⟨?_, ?_, ?_, ?_, ?_⟩
  · intro key t ts store habs hin
    have hstep : memIsRateLimited t key store =
        (false, memSet key { count := 1, resetAt := t + WINDOW_MS } store) := by
      simp [memIsRateLimited, habs]
    have hrest := memCalls_live_window key ts 1 (t + WINDOW_MS)
      (memSet key { count := 1, resetAt := t + WINDOW_MS } store)
      (memSet_lookup key _ store) hin
    simp only [memCalls, hstep, hrest]
    rw [List.range_succ_eq_map, List.map_cons, List.map_map]
    refine congrArg₂ List.cons (by norm_num [MAX]) ?_
    refine List.map_congr_left ?_
    intro i _
    simp only [Function.comp_apply]
    exact decide_eq_decide.mpr (by constructor <;> omega)
  · intro key e store t hlook hreset
    simp [memIsRateLimited, hlook, hreset]
  · intro key ts b store hfresh hb
    simpa using redisCalls_same_bucket key ts 0 b store hfresh hb
  · intro t1 t2 h
    have hW : 0 < WINDOW_MS := by norm_num [WINDOW_MS, WINDOW_S]
    have h1 : t1 / WINDOW_MS + 1 = (t1 + WINDOW_MS) / WINDOW_MS := by
      rw [Nat.add_div_right _ hW]
    have h2 : (t1 + WINDOW_MS) / WINDOW_MS ≤ t2 / WINDOW_MS :=
      Nat.div_le_div_right h
    omega
  · intro key t store hfresh
    simp [isRateLimitedRedis, redisIncr, hfresh, MAX]

/-- Witness for C6: 21 calls at the same instant from an empty fallback
store show calls 1–20 admitted and the 21st rejected; the matching Redis
run and the window-reset admissions are instantiated alongside. -/
theorem isRateLimited_window_spec_witness :
    (([] : MemStore).lookup "ip" = none ∧
      (memCalls "ip" (5 :: List.replicate 20 7) []).1 =
        (List.range 21).map (fun i => decide (MAX < i + 1))) ∧
    ((memSet "ip" { count := 21, resetAt := 60005 } []).lookup "ip" =
        some { count := 21, resetAt := 60005 } ∧
      (memIsRateLimited 60005 "ip" (memSet "ip" { count := 21, resetAt := 60005 } [])).1 =
        false) ∧
    ((([] : RedisStore).lookup (redisBucketKey "ip" 0)).getD 0 = 0 ∧
      (redisCalls "ip" (List.replicate 21 9) []).1 =
        (List.range 21).map (fun i => decide (MAX < i + 1))) ∧
    (5 : Nat) / WINDOW_MS < (60005 : Nat) / WINDOW_MS ∧
    ((([] : RedisStore).lookup (redisKey 60005 "ip")).getD 0 = 0 ∧
      (isRateLimitedRedis 60005 "ip" []).1 = false) :=
  ⟨⟨rfl, isRateLimited_window_spec.1 "ip" 5 (List.replicate 20 7) [] rfl (by decide)⟩,
    ⟨rfl, isRateLimited_window_spec.2.1 "ip" _ _ 60005 (memSet_lookup "ip" _ []) (by decide)⟩,
    ⟨rfl, isRateLimited_window_spec.2.2.1 "ip" (List.replicate 21 9) 0 [] rfl (by decide)⟩,
    isRateLimited_window_spec.2.2.2.1 5 60005 (by decide),
    ⟨rfl, isRateLimited_window_spec.2.2.2.2 "ip" 60005 [] rfl⟩⟩

end NotifyFlow
